import Mathlib

/-!
Verification of the ADPN-CLI JSON pipeline core (ADPNCommandLineTool.py,
adpn-json.py, adpn-do-package.py) via a shallow embedding of the Python
source into Lean.  Python values are modelled by the inductive `PyVal`,
Python dicts by insertion-ordered association lists, machine behaviour
(exceptions such as TypeError / ValueError / KeyError) by `Except`.
-/

/-- A Python value as used by these scripts: None, bool, int, str,
list, or dict (insertion-ordered association list keyed by str).
Floats do not occur in the modelled code paths. -/
inductive PyVal where
  | VNone : PyVal
  | VBool : Bool → PyVal
  | VInt : Int → PyVal
  | VStr : String → PyVal
  | VList : List PyVal → PyVal
  | VDict : List (String × PyVal) → PyVal
deriving Repr

open PyVal

mutual

/-- Decidable equality on `PyVal` (hand-rolled: the automatic deriving does
not handle the nested lists). -/
def PyVal.decEq : (a b : PyVal) → Decidable (a = b)
  | VNone, VNone => isTrue rfl
  | VBool a, VBool b =>
      if h : a = b then isTrue (by rw [h]) else
        isFalse (by intro hh; injection hh; contradiction)
  | VInt a, VInt b =>
      if h : a = b then isTrue (by rw [h]) else
        isFalse (by intro hh; injection hh; contradiction)
  | VStr a, VStr b =>
      if h : a = b then isTrue (by rw [h]) else
        isFalse (by intro hh; injection hh; contradiction)
  | VList a, VList b =>
      match PyVal.decEqList a b with
      | isTrue h => isTrue (by rw [h])
      | isFalse n => isFalse (by intro hh; injection hh; contradiction)
  | VDict a, VDict b =>
      match PyVal.decEqDict a b with
      | isTrue h => isTrue (by rw [h])
      | isFalse n => isFalse (by intro hh; injection hh; contradiction)
  | VNone, VBool _ | VNone, VInt _ | VNone, VStr _ | VNone, VList _
  | VNone, VDict _ | VBool _, VNone | VBool _, VInt _ | VBool _, VStr _
  | VBool _, VList _ | VBool _, VDict _ | VInt _, VNone | VInt _, VBool _
  | VInt _, VStr _ | VInt _, VList _ | VInt _, VDict _ | VStr _, VNone
  | VStr _, VBool _ | VStr _, VInt _ | VStr _, VList _ | VStr _, VDict _
  | VList _, VNone | VList _, VBool _ | VList _, VInt _ | VList _, VStr _
  | VList _, VDict _ | VDict _, VNone | VDict _, VBool _ | VDict _, VInt _
  | VDict _, VStr _ | VDict _, VList _ => isFalse (fun h => by cases h)

def PyVal.decEqList : (a b : List PyVal) → Decidable (a = b)
  | [], [] => isTrue rfl
  | [], _ :: _ => isFalse (fun h => by cases h)
  | _ :: _, [] => isFalse (fun h => by cases h)
  | a :: as, b :: bs =>
      match PyVal.decEq a b, PyVal.decEqList as bs with
      | isTrue h1, isTrue h2 => isTrue (by rw [h1, h2])
      | isFalse n, _ => isFalse (by intro hh; injection hh; contradiction)
      | _, isFalse n => isFalse (by intro hh; injection hh; contradiction)

def PyVal.decEqDict : (a b : List (String × PyVal)) → Decidable (a = b)
  | [], [] => isTrue rfl
  | [], _ :: _ => isFalse (fun h => by cases h)
  | _ :: _, [] => isFalse (fun h => by cases h)
  | (k, v) :: as, (k', v') :: bs =>
      match String.decEq k k', PyVal.decEq v v', PyVal.decEqDict as bs with
      | isTrue h0, isTrue h1, isTrue h2 => isTrue (by rw [h0, h1, h2])
      | isFalse n, _, _ =>
          isFalse (by intro hh; injection hh with hh1 hh2;
                      injection hh1; contradiction)
      | _, isFalse n, _ =>
          isFalse (by intro hh; injection hh with hh1 hh2;
                      injection hh1; contradiction)
      | _, _, isFalse n =>
          isFalse (by intro hh; injection hh with hh1 hh2; contradiction)

end

instance : DecidableEq PyVal := PyVal.decEq

/-- Python exceptions raised by the modelled code paths. -/
inductive PyErr where
  | TypeError : PyErr
  | ValueError : PyErr
  | KeyError : String → PyErr
  | IndexError : PyErr
  | JSONDecodeError : PyErr
deriving DecidableEq, Repr

/-- Python `dict.get(key)`: first (only) binding of `key`, or `None`→`none`. -/
def dictGet (d : List (String × PyVal)) (k : String) : Option PyVal :=
  match d with
  | [] => none
  | (k', v) :: rest => if k' = k then some v else dictGet rest k

/-- Python `d[key] = value` on an insertion-ordered dict: replace in place
if the key is present, append otherwise. -/
def dictSet (d : List (String × PyVal)) (k : String) (v : PyVal) :
    List (String × PyVal) :=
  match d with
  | [] => [(k, v)]
  | (k', v') :: rest =>
      if k' = k then (k, v) :: rest else (k', v') :: dictSet rest k v

/-- Python `{**a, **b}`: shallow merge, later keys override earlier ones. -/
def dictMerge (a b : List (String × PyVal)) : List (String × PyVal) :=
  b.foldl (fun acc kv => dictSet acc kv.1 kv.2) a

example : dictGet [("a", VInt 1), ("b", VInt 2)] "b" = some (VInt 2) := by decide
example : dictMerge [("a", VInt 1)] [("a", VInt 7), ("c", VInt 3)]
    = [("a", VInt 7), ("c", VInt 3)] := by decide

/-! ### Python string primitives -/

/-- Whitespace as stripped by Python `int(str)`. -/
def isPySpace (c : Char) : Bool :=
  c = ' ' || c = '\t' || c = '\n' || c = '\r' ||
  c = Char.ofNat 11 || c = Char.ofNat 12

/-- Numeric value of a list of ASCII digit characters. -/
def digitsVal (ds : List Char) : Nat :=
  ds.foldl (fun a c => 10 * a + (c.toNat - 48)) 0

/-- Parse a Python integer-literal digit run: `digit (digit | "_" digit)*`
(single underscores allowed between digits only).  Returns the digits. -/
def pyDigitRun : List Char → Option (List Char)
  | [] => none
  | c :: rest =>
      if c.isDigit then pyDigitRunGo rest [c] else none
where
  pyDigitRunGo : List Char → List Char → Option (List Char)
    | [], acc => some acc.reverse
    | c :: rest, acc =>
        if c = '_' then
          match rest with
          | c' :: rest' =>
              if c'.isDigit then pyDigitRunGo rest' (c' :: acc) else none
          | [] => none
        else if c.isDigit then pyDigitRunGo rest (c :: acc) else none

/-- Python `int(s)` on a `str`: strip whitespace, optional sign, digit run
with optional grouping underscores; `none` models a raised `ValueError`. -/
def pyIntOfStr (s : String) : Option Int :=
  let cs := (s.toList.dropWhile (isPySpace ·)).reverse.dropWhile (isPySpace ·)
    |>.reverse
  match cs with
  | [] => none
  | c :: rest =>
      if c = '+' then (pyDigitRun rest).map (fun ds => (digitsVal ds : Int))
      else if c = '-' then
        (pyDigitRun rest).map (fun ds => -(digitsVal ds : Int))
      else (pyDigitRun (c :: rest)).map (fun ds => (digitsVal ds : Int))

example : pyIntOfStr "  42 " = some 42 := by decide
example : pyIntOfStr "-7" = some (-7) := by decide
example : pyIntOfStr "1_000" = some 1000 := by decide
example : pyIntOfStr "" = none := by decide
example : pyIntOfStr "abc" = none := by decide
example : pyIntOfStr "3,ignored" = none := by decide

/-! ### The regular expressions used by the modelled code

All three patterns have the shape `^ LITERAL (.*) LITERAL? $` with `re.match`
semantics: `.` does not cross a newline, and `$` matches at the end of the
string or just before one trailing newline.  `reDollarCore` captures the
latter rule: the portion of the input that the pattern body must cover. -/

/-- The span a `^...$`-anchored pattern whose body cannot cross a newline
must match: the whole string if it is newline-free, the string minus one
trailing newline if that is the only newline, otherwise no match. -/
def reDollarCore (cs : List Char) : Option (List Char) :=
  if ¬ cs.contains '\n' then some cs
  else if cs.getLast? = some '\n' ∧ ¬ cs.dropLast.contains '\n' then
    some cs.dropLast
  else none

/-- `re.match(r"^[@](.*)$", key)`, returning group 1
(`ADPNScriptPipeline.get_data`). -/
def reMatchAtSign (key : String) : Option String :=
  match reDollarCore key.toList with
  | some ('@' :: rest) => some (String.mk rest)
  | _ => none

/-- `re.match(r"^([0-9]+)[,].*$", s)`, returning group 1
(`ADPNCommandLineTool.convertto_numeric_value`). -/
def reMatchNumComma (s : String) : Option String :=
  match reDollarCore s.toList with
  | some cs =>
      let ds := cs.takeWhile (·.isDigit)
      if ds ≠ [] ∧ (cs.drop ds.length).head? = some ',' then
        some (String.mk ds)
      else none
  | none => none

/-- `re.match(r"^[/](.*)[/]$", v)`, returning group 1 (greedy `(.*)`, so
everything between the first character and the last)
(`ADPNGetJSON.data_matches`). -/
def reMatchSlashes (v : String) : Option String :=
  match reDollarCore v.toList with
  | some ('/' :: rest) =>
      if rest ≠ [] ∧ rest.getLast? = some '/' then
        some (String.mk rest.dropLast)
      else none
  | _ => none

example : reMatchAtSign "@foo" = some "foo" := by decide
example : reMatchAtSign "foo" = none := by decide
example : reMatchAtSign "@" = some "" := by decide
example : reMatchNumComma "3,ignored" = some "3" := by decide
example : reMatchNumComma "3" = none := by decide
example : reMatchNumComma "x3," = none := by decide
example : reMatchSlashes "/ab.c/" = some "ab.c" := by decide
example : reMatchSlashes "/a/b/" = some "a/b" := by decide
example : reMatchSlashes "ab" = none := by decide

mutual

/-- Python `repr(v)`.  (Quote-escaping inside string literals is not
reproduced; no modelled code path depends on it.) -/
def pyRepr : PyVal → String
  | VNone => "None"
  | VBool b => if b then "True" else "False"
  | VInt n => toString n
  | VStr s => "'" ++ s ++ "'"
  | VList l => "[" ++ String.intercalate ", " (pyReprList l) ++ "]"
  | VDict d => "\x7b" ++ String.intercalate ", " (pyReprDict d) ++ "\x7d"

def pyReprList : List PyVal → List String
  | [] => []
  | v :: rest => pyRepr v :: pyReprList rest

def pyReprDict : List (String × PyVal) → List String
  | [] => []
  | (k, v) :: rest => ("'" ++ k ++ "': " ++ pyRepr v) :: pyReprDict rest

end

/-- Python `str(v)`: identical to `repr(v)` except on `str` itself. -/
def pyStr : PyVal → String
  | VStr s => s
  | v => pyRepr v

example : pyStr (VInt 1) = "1" := by decide
example : pyStr (VStr "a") = "a" := by decide

instance {ε α : Type} [DecidableEq ε] [DecidableEq α] :
    DecidableEq (Except ε α)
  | .ok a, .ok b =>
      if h : a = b then isTrue (by rw [h]) else
        isFalse (by intro hh; injection hh; contradiction)
  | .error a, .error b =>
      if h : a = b then isTrue (by rw [h]) else
        isFalse (by intro hh; injection hh; contradiction)
  | .ok _, .error _ => isFalse (fun h => by cases h)
  | .error _, .ok _ => isFalse (fun h => by cases h)

/-! ### ADPNScriptPipeline (ADPNCommandLineTool.py, lines 12–60) -/

/-- `dict.get(k)` seen from Python: a missing key and a stored `None` both
come back as the `None` object. -/
def pyGet (d : List (String × PyVal)) (k : String) : PyVal :=
  (dictGet d k).getD VNone

/-- Python `type(v) is list`. -/
def isVList : PyVal → Bool
  | VList _ => true
  | _ => false

/-- Python `len(v)`; `none` models a raised `TypeError`. -/
def pyLen : PyVal → Option Nat
  | VStr s => some s.length
  | VList l => some l.length
  | VDict d => some d.length
  | _ => none

/-- Python tuple unpacking `(a, b) = v` for a value of length 2: elements
of a list, characters of a str, keys of a dict.  Only meaningful when
`pyLen v = some 2`. -/
def unpack2 : PyVal → PyVal × PyVal
  | VList (a :: b :: _) => (a, b)
  | VStr s =>
      match s.toList with
      | a :: b :: _ => (VStr (String.mk [a]), VStr (String.mk [b]))
      | _ => (VNone, VNone)
  | VDict ((k1, _) :: (k2, _) :: _) => (VStr k1, VStr k2)
  | _ => (VNone, VNone)

/-- The `for pair in parameters` loop of `ADPNScriptPipeline.get_data`
(lines 43–47): each length-2 entry whose first component equals `name`
overwrites `result`; `len(pair)` on an unsized entry raises `TypeError`. -/
def paramsLoop (ps : List PyVal) (name : String) (result : PyVal) :
    Except PyErr PyVal :=
  match ps with
  | [] => .ok result
  | pair :: rest =>
      match pyLen pair with
      | none => .error .TypeError
      | some n =>
          if n = 2 then
            let (k, v) := unpack2 pair
            paramsLoop rest name (if k = VStr name then v else result)
          else
            paramsLoop rest name result

/-- `ADPNScriptPipeline.get_data` (lines 32–48) for a non-`None` key,
applied to the accumulated packet `allData`.  (The assembly of `allData`
from the piped lines is `myPyJSON`, modelled separately below.) -/
def get_data (allData : List (String × PyVal)) (key : String) :
    Except PyErr PyVal :=
  let result := pyGet allData key
  if isVList (pyGet allData "parameters") then
    match reMatchAtSign key with
    | some m1 =>
        match pyGet allData "parameters" with
        | VList ps => paramsLoop ps m1 result
        | _ => .ok result
    | none => .ok result
  else .ok result

/-- `ADPNScriptPipeline.backfilled` (lines 50–60).  `getDataResult` is the
outcome of the `self.get_data(data_source)` call, which is only evaluated
when the named key is absent (or `None`) in the copied table. -/
def backfilled (table : List (String × PyVal)) (key : String)
    (getDataResult : Except PyErr PyVal) :
    Except PyErr (List (String × PyVal)) :=
  let result := table
  if pyGet result key = VNone then
    match getDataResult with
    | .error e => .error e
    | .ok v => .ok (if v ≠ VNone then dictSet result key v else result)
  else .ok result

example :
    get_data [("parameters", VList [VList [VStr "foo", VStr "bar"]])] "@foo"
      = .ok (VStr "bar") := by decide
example :
    get_data [("parameters", VList [VList [VStr "foo", VStr "bar"]])]
      "@missing" = .ok VNone := by decide
example :
    get_data [("@foo", VStr "x"),
      ("parameters", VList [VList [VStr "foo", VStr "bar"]])] "@foo"
      = .ok (VStr "bar") := by decide

/-! ### ADPNCommandLineTool (ADPNCommandLineTool.py, lines 62–273) -/

/-- `ADPNCommandLineTool.convertto_numeric_value` (lines 155–173).
`switchVal` is what `self.switches.get(switch)` would return; it is used
only when the `value` argument is the `None` object (the code's
`rhs = self.switches.get(switch) if value is None else value`). -/
def convertto_numeric_value (switchVal : PyVal) (value : PyVal) :
    Except PyErr Int :=
  let rhs := if value = VNone then switchVal else value
  let rhs :=
    match rhs with
    | VStr s =>
        match reMatchNumComma s with
        | some m1 => VStr m1
        | none => VStr s
    | other => other
  match rhs with
  | VBool b => .ok (if b then 1 else 0)
  | VInt n => .ok n
  | VStr s =>
      match pyIntOfStr s with
      | some n => .ok n
      | none => .ok (if s.length > 0 then 1 else 0)
  | VNone => .ok 0
  | _ => .error .TypeError

example : convertto_numeric_value VNone (VStr "3,ignored") = .ok 3 := by decide
example : convertto_numeric_value VNone (VStr "") = .ok 0 := by decide
example : convertto_numeric_value VNone (VStr "abc") = .ok 1 := by decide
example : convertto_numeric_value VNone VNone = .ok 0 := by decide
example : convertto_numeric_value VNone (VInt 5) = .ok 5 := by decide
example : convertto_numeric_value VNone (VList []) = .error .TypeError := by
  decide

/-- `ADPNCommandLineTool.set_exitcode` (lines 200–204) as a transition on
the stored `_exitcode`: in-range codes are stored, out-of-range codes
raise `ValueError` and leave the stored code unchanged. -/
def set_exitcode (stored : Int) (code : Int) : Int × Option PyErr :=
  if 0 ≤ code ∧ code ≤ 255 then (code, none) else (stored, some .ValueError)

/-- The two output streams of the process. -/
inductive OutStream where
  | stdout : OutStream
  | stderr : OutStream
deriving DecidableEq, Repr

/-- `ADPNCommandLineTool.write_error` (lines 248–251): sets the exit code
(when `code` is not `None`) and prints the bracketed message to stderr.
Result: (stored exit code, raised exception if any, printed line if any).
If the exit-code assignment raises `ValueError`, nothing is printed. -/
def write_error (stored : Int) (scriptname prfx message : String)
    (code : Option Int) : Int × Option PyErr × Option (OutStream × String) :=
  match code with
  | some c =>
      match set_exitcode stored c with
      | (st, none) =>
          (st, none,
            some (.stderr, prfx ++ "[" ++ scriptname ++ "] " ++ message))
      | (st, some e) => (st, some e, none)
  | none =>
      (stored, none,
        some (.stderr, prfx ++ "[" ++ scriptname ++ "] " ++ message))

/-- `ADPNCommandLineTool.plain_text_output` (lines 215–217). -/
def plain_text_output (outputSwitch : Option String) : Bool :=
  outputSwitch = none ∨ outputSwitch = some "text/plain"

/-- `ADPNCommandLineTool.write_status` (lines 232–246): the stream and text
actually printed, or `none` when suppressed by the verbosity gate. -/
def write_status (scriptname : String) (plainText : Bool) (verbose : Int)
    (message : String) (prolog : Option String) (isNotice : Bool)
    (verbosity : Int) : Option (OutStream × String) :=
  let prfx :=
    match prolog with
    | none => "[" ++ scriptname ++ "] "
    | some p => p ++ " "
  let streamText :=
    if isNotice then
      ((if ¬ plainText ∧ verbosity > 0 then OutStream.stderr else OutStream.stdout),
        prfx ++ message)
    else
      (OutStream.stdout, message)
  if verbosity ≤ verbose then some streamText else none

/-! ### ADPNGetJSON: flags, exit code, output format (adpn-json.py) -/

/-- The `_flags` table of `ADPNGetJSON` (line 184). -/
structure GetJSONFlags where
  json_error : List String
  key_error : List String
  nothing_found : List String
  output_error : List String
deriving DecidableEq, Repr

/-- A fresh `ADPNGetJSON` instance's flags. -/
def GetJSONFlags.init : GetJSONFlags := ⟨[], [], [], []⟩

/-- `self.flags[flag]` for the four flag names used by the script. -/
def flagsGet (f : GetJSONFlags) : String → List String
  | "json_error" => f.json_error
  | "key_error" => f.key_error
  | "nothing_found" => f.nothing_found
  | "output_error" => f.output_error
  | _ => []

/-- `ADPNGetJSON.test_flagged` (lines 216–218). -/
def test_flagged (f : GetJSONFlags) (flag : String) : Bool :=
  (flagsGet f flag).length > 0

/-- `ADPNGetJSON.add_flag` (lines 212–214): appends `value` to the named
flag list unless the value is `None`. -/
def add_flag (f : GetJSONFlags) (flag : String) (value : Option String) :
    GetJSONFlags :=
  match value with
  | none => f
  | some v =>
      match flag with
      | "json_error" => { f with json_error := f.json_error ++ [v] }
      | "key_error" => { f with key_error := f.key_error ++ [v] }
      | "nothing_found" => { f with nothing_found := f.nothing_found ++ [v] }
      | "output_error" => { f with output_error := f.output_error ++ [v] }
      | _ => f

/-- `ADPNGetJSON.exitcode` (lines 196–206): the final exit code computed
from the accumulated flags. -/
def getjson_exitcode (f : GetJSONFlags) : Int :=
  if test_flagged f "json_error" then 2
  else if test_flagged f "key_error" then 1
  else if test_flagged f "output_error" then 254
  else 0

/-- Python `s.split(sep)` for a one-character separator: split at every
occurrence, preserving empty pieces. -/
def pySplitChar (sep : Char) (s : String) : List String :=
  go s.toList []
where
  go : List Char → List Char → List String
    | [], acc => [String.mk acc.reverse]
    | c :: rest, acc =>
        if c = sep then String.mk acc.reverse :: go rest []
        else go rest (c :: acc)

example : pySplitChar ';' "application/json;prettyprint"
    = ["application/json", "prettyprint"] := by decide
example : pySplitChar ';' "text/plain" = ["text/plain"] := by decide

/-- `ADPNGetJSON.get_output_format` (lines 273–276). -/
def get_output_format (outputSwitch : Option String) (defaultMime : String)
    (index : Nat) : Option String :=
  let sSpec := outputSwitch.getD defaultMime
  let aSpec := pySplitChar ';' sSpec
  aSpec[index]?

/-- `ADPNGetJSON.wants_table` (lines 226–229).  `keySwitch` is the `--key`
switch (`None`, or a list of requested keys). -/
def wants_table (outputSwitch : Option String) (keySwitch : Option (List String))
    (defaultMime : String) : Bool :=
  let requested_table :=
    decide (get_output_format outputSwitch defaultMime 0
              = some "text/tab-separated-values") ||
    decide (get_output_format outputSwitch defaultMime 1 = some "table")
  let implies_table :=
    decide (keySwitch = none) &&
    decide (get_output_format outputSwitch defaultMime 0 = none)
  implies_table || requested_table

/-- `ADPNGetJSON.is_multiline_output` (lines 265–267). -/
def is_multiline_output (selfOutput : List String)
    (output : Option (List String)) : Bool :=
  decide ((output.getD selfOutput).length > 1)

/-- `ADPNGetJSON.get_output_terminator` (lines 269–271). -/
def get_output_terminator (outputSwitch : Option String)
    (keySwitch : Option (List String)) (defaultMime : String)
    (selfOutput : List String) (output : Option (List String)) : String :=
  if wants_table outputSwitch keySwitch defaultMime
      || is_multiline_output selfOutput output
    then "\n" else ""

/-- `ADPNDataConverter.write_output` (lines 72–80): the text actually
printed to the stream, or `none` when the filtered line list is empty
(in which case nothing at all is printed, terminator included). -/
def converter_write_output (outputLines : List String)
    (template : String → String) (whereOk : String → Bool)
    (delimiter endStr : String) : Option String :=
  let fmt := (outputLines.filter whereOk).map template
  if fmt.length > 0 then some (String.intercalate delimiter fmt ++ endStr)
  else none

/-- `ADPNGetJSON.format_line` (lines 433–436); `addProlog` stands for
`myPyJSON.add_prolog` (code not in this repository). -/
def format_line (prologSw epilogSw : Bool) (addProlog : String → String)
    (line : String) : String :=
  let output := if prologSw then addProlog line else line
  if epilogSw then output ++ "\n" else output

/-! ### ADPNGetJSON: where-filtering (adpn-json.py, lines 237–263) -/

/-- `ADPNGetJSON.data_matches` (lines 237–249).  `reMatchFn pat s` stands
for Python's `bool(re.match(pat, s))` (the `re` engine is an external
library, kept abstract).  Python `bool` fields take the `isinstance(·, int)`
branch; `re.match` against a non-`str` field raises `TypeError`;
`int(value)` against a non-numeric literal raises `ValueError`. -/
def data_matches (reMatchFn : String → String → Bool) (item : PyVal)
    (key value : String) : Except PyErr Bool :=
  match item with
  | VDict d =>
      match reMatchSlashes value with
      | some m1 =>
          match pyGet d key with
          | VStr s => .ok (reMatchFn m1 s)
          | _ => .error .TypeError
      | none =>
          match pyGet d key with
          | VStr s => .ok (decide (s = value))
          | VBool b =>
              match pyIntOfStr value with
              | some m => .ok (decide ((if b then (1 : Int) else 0) = m))
              | none => .error .ValueError
          | VInt n =>
              match pyIntOfStr value with
              | some m => .ok (decide (n = m))
              | none => .error .ValueError
          | _ => .ok false
  | _ => .ok true

/-- Python `spec.split(":", 1)` unpacked into exactly two names;
`none` models the `ValueError` when the spec has no colon. -/
def whereSplit (spec : String) : Option (String × String) :=
  go spec.toList []
where
  go : List Char → List Char → Option (String × String)
    | [], _ => none
    | c :: rest, acc =>
        if c = ':' then some (String.mk acc.reverse, String.mk rest)
        else go rest (c :: acc)

/-- `ADPNGetJSON.selected` (lines 257–263) applied to one item: the filter
is the constant `True` unless a truthy `--where` switch is given, in which
case the spec is split at the first colon and `data_matches` decides. -/
def selected (reMatchFn : String → String → Bool)
    (whereSwitch : Option String) (x : PyVal) : Except PyErr Bool :=
  match whereSwitch with
  | none => .ok true
  | some spec =>
      if spec = "" then .ok true
      else
        match whereSplit spec with
        | some (k, v) => data_matches reMatchFn x k v
        | none => .error .ValueError

example :
    data_matches (fun _ _ => false) (VDict [("a", VStr "x")]) "a" "x"
      = .ok true := by decide
example :
    data_matches (fun _ _ => false) (VDict [("n", VInt 3)]) "n" "3"
      = .ok true := by decide
example :
    data_matches (fun _ _ => false) (VInt 9) "a" "x" = .ok true := by decide

/-! ### myPyJSON (module `myLockssScripts`, not part of this repository)

The JSON Packet Store is imported from `myLockssScripts`; its code is not
under `src/`.  The definitions in this section are modelled from the spec:
line-by-line direct JSON parsing, shallow last-write-wins merging of the
parsed objects, and — in screen mode — extraction of the first balanced
`{...}` substring of a line (tracking brace depth and quoted strings).
Numbers are modelled as integers and the splat/cascade options are not
modelled; no claim below depends on them. -/

/-- JSON insignificant whitespace. -/
def skipWs (cs : List Char) : List Char :=
  cs.dropWhile (fun c => c = ' ' || c = '\t' || c = '\n' || c = '\r')

/-- A JSON string-escape character and its decoded value. -/
def escChar : Char → Option Char
  | '"' => some '"'
  | '\\' => some '\\'
  | '/' => some '/'
  | 'b' => some (Char.ofNat 8)
  | 'f' => some (Char.ofNat 12)
  | 'n' => some '\n'
  | 'r' => some '\r'
  | 't' => some '\t'
  | _ => none

/-- Body of a JSON string literal (the opening quote already consumed):
returns the decoded string and the remaining input. -/
def parseStringBody : List Char → List Char → Option (String × List Char)
  | [], _ => none
  | '"' :: rest, acc => some (String.mk acc.reverse, rest)
  | '\\' :: rest, acc =>
      match rest with
      | e :: rest' =>
          match escChar e with
          | some c => parseStringBody rest' (c :: acc)
          | none => none
      | [] => none
  | c :: rest, acc =>
      if c.toNat < 32 then none else parseStringBody rest (c :: acc)

/-- A JSON number restricted to integers (floats are outside the model). -/
def parseJsonNumber (cs : List Char) : Option (PyVal × List Char) :=
  let (neg, cs') :=
    match cs with
    | '-' :: r => (true, r)
    | _ => (false, cs)
  let ds := cs'.takeWhile (·.isDigit)
  let rest := cs'.drop ds.length
  if ds = [] then none
  else if ds.head? = some '0' ∧ ds.length > 1 then none
  else if rest.head? = some '.' ∨ rest.head? = some 'e' ∨ rest.head? = some 'E'
    then none
  else
    some (VInt (if neg then -(digitsVal ds : Int) else (digitsVal ds : Int)),
      rest)

mutual

/-- Recursive-descent JSON value parser (fuelled). -/
def parseJsonVal : Nat → List Char → Option (PyVal × List Char)
  | 0, _ => none
  | Nat.succ fuel, cs =>
      match skipWs cs with
      | 'n' :: 'u' :: 'l' :: 'l' :: rest => some (VNone, rest)
      | 't' :: 'r' :: 'u' :: 'e' :: rest => some (VBool true, rest)
      | 'f' :: 'a' :: 'l' :: 's' :: 'e' :: rest => some (VBool false, rest)
      | '"' :: rest =>
          (parseStringBody rest []).map (fun p => (VStr p.1, p.2))
      | '{' :: rest =>
          match skipWs rest with
          | '}' :: rest' => some (VDict [], rest')
          | cs' => parseObjMembers fuel cs' []
      | '[' :: rest =>
          match skipWs rest with
          | ']' :: rest' => some (VList [], rest')
          | cs' => parseArrItems fuel cs' []
      | cs' => parseJsonNumber cs'

/-- Members of a JSON object after `{` (at least one member). -/
def parseObjMembers : Nat → List Char → List (String × PyVal) →
    Option (PyVal × List Char)
  | 0, _, _ => none
  | Nat.succ fuel, cs, acc =>
      match skipWs cs with
      | '"' :: rest =>
          match parseStringBody rest [] with
          | none => none
          | some (k, rest') =>
              match skipWs rest' with
              | ':' :: rest'' =>
                  match parseJsonVal fuel rest'' with
                  | none => none
                  | some (v, rest3) =>
                      match skipWs rest3 with
                      | ',' :: rest4 => parseObjMembers fuel rest4 (dictSet acc k v)
                      | '}' :: rest4 => some (VDict (dictSet acc k v), rest4)
                      | _ => none
              | _ => none
      | _ => none

/-- Items of a JSON array after `[` (at least one item). -/
def parseArrItems : Nat → List Char → List PyVal → Option (PyVal × List Char)
  | 0, _, _ => none
  | Nat.succ fuel, cs, acc =>
      match parseJsonVal fuel cs with
      | none => none
      | some (v, rest) =>
          match skipWs rest with
          | ',' :: rest' => parseArrItems fuel rest' (acc ++ [v])
          | ']' :: rest' => some (VList (acc ++ [v]), rest')
          | _ => none

end

/-- `json.loads` on a whole string (must consume everything). -/
def pyJsonLoads (s : String) : Option PyVal :=
  match parseJsonVal (s.length + 1) s.toList with
  | some (v, rest) => if skipWs rest = [] then some v else none
  | none => none

example : pyJsonLoads "\x7b\"a\":1\x7d" = some (VDict [("a", VInt 1)]) := by
  decide
example : pyJsonLoads "Some noise \x7b\"k\":1\x7d trailing text" = none := by
  decide

/-- Modelled from the spec: screen-mode extraction of the first balanced
`{...}` substring of a line, tracking quote state and brace depth
character by character (`myLockssScripts.myPyJSON`, code not in this
repository). -/
def screenExtract (s : String) : Option String :=
  screenFind s.toList
where
  /-- Skip ahead to the first `{`. -/
  screenFind : List Char → Option String
    | [] => none
    | '{' :: rest => screenGo rest ['{'] 1 false false
    | _ :: rest => screenFind rest
  /-- Accumulate until the matching close brace; `depth` open braces,
  `inStr` inside a string literal, `esc` right after a backslash. -/
  screenGo : List Char → List Char → Nat → Bool → Bool → Option String
    | [], _, _, _, _ => none
    | c :: rest, acc, depth, inStr, esc =>
        if inStr then
          if esc then screenGo rest (c :: acc) depth true false
          else if c = '\\' then screenGo rest (c :: acc) depth true true
          else if c = '"' then screenGo rest (c :: acc) depth false false
          else screenGo rest (c :: acc) depth true false
        else
          if c = '"' then screenGo rest (c :: acc) depth true false
          else if c = '{' then screenGo rest (c :: acc) (depth + 1) false false
          else if c = '}' then
            if depth = 1 then some (String.mk (c :: acc).reverse)
            else screenGo rest (c :: acc) (depth - 1) false false
          else screenGo rest (c :: acc) depth false false

example :
    screenExtract "Some noise \x7b\"k\":1\x7d trailing text"
      = some "\x7b\"k\":1\x7d" := by decide

/-- A line consisting solely of whitespace (contributes nothing). -/
def lineBlank (s : String) : Bool := skipWs s.toList = []

/-- Modelled from the spec: `myPyJSON.accept` without screen mode, then
`allData` — each non-blank line must parse directly as a JSON object and
the objects are merged shallowly, later keys overriding earlier ones;
otherwise a `JSONDecodeError` is raised (`myLockssScripts.myPyJSON`,
code not in this repository). -/
def acceptDirect (lines : List String) : Except PyErr (List (String × PyVal)) :=
  go lines []
where
  go : List String → List (String × PyVal) → Except PyErr (List (String × PyVal))
    | [], d => .ok d
    | l :: ls, d =>
        if lineBlank l then go ls d
        else
          match pyJsonLoads l with
          | some (VDict d') => go ls (dictMerge d d')
          | _ => .error .JSONDecodeError

/-- One line under screen mode: direct parse, else parse of the first
balanced `{...}` substring, else nothing. -/
def screenLine (l : String) : Option (List (String × PyVal)) :=
  match pyJsonLoads l with
  | some (VDict d) => some d
  | _ =>
      match screenExtract l with
      | some sub =>
          match pyJsonLoads sub with
          | some (VDict d) => some d
          | _ => none
      | none => none

/-- Modelled from the spec: `myPyJSON.accept` with `screen=True`, then
`allData` — lines that yield a JSON object (directly or by balanced-brace
extraction) are merged; if no line yields one, `JSONDecodeError` is raised
(`myLockssScripts.myPyJSON`, code not in this repository). -/
def acceptScreen (lines : List String) : Except PyErr (List (String × PyVal)) :=
  let parts := lines.filterMap screenLine
  if parts = [] then .error .JSONDecodeError
  else .ok (parts.foldl dictMerge [])

/-- `ADPNGetJSON.get_json_input` (adpn-json.py, lines 450–462): a first
direct-parse pass over the whole input; only if it raises a decode error
is the store re-run in screen mode over the same lines.  (The `key+` and
`into` post-processing blocks, inactive when those switches are absent,
and `select_where` with the constant-true default filter are identity and
omitted here.) -/
def get_json_input (lines : List String) : Except PyErr (List (String × PyVal)) :=
  match acceptDirect lines with
  | .ok table => .ok table
  | .error _ => acceptScreen lines

example : get_json_input ["Some noise \x7b\"k\":1\x7d trailing text"]
    = .ok [("k", VInt 1)] := by decide
example : get_json_input ["\x7b\"a\":1\x7d"] = .ok [("a", VInt 1)] := by decide

/-! ### ADPNGetJSON: the display pass (adpn-json.py, lines 281–427)

Modelled for the `text/plain` configuration (no `--template`, no JSON or
urlencoded output): the branches for `wants_printf_output` and
`wants_json_output` are never taken there and are omitted. -/

/-- Python `type(v) is dict`. -/
def isVDict : PyVal → Bool
  | VDict _ => true
  | _ => false

/-- The switch context of a display pass: the `--output` and `--key`
switches. -/
structure DispCfg where
  outputSwitch : Option String
  keySwitch : Option (List String)

/-- `self.wants_table()` under this configuration (`_default_mime` is
`"text/plain"` on the `get_json_input` path). -/
def DispCfg.wantsTable (cfg : DispCfg) : Bool :=
  wants_table cfg.outputSwitch cfg.keySwitch "text/plain"

/-- `self.data_keys` (line 377–379): the `--key` switch, default `[]`. -/
def DispCfg.dataKeys (cfg : DispCfg) : List String :=
  cfg.keySwitch.getD []

/-- The mutable display state: the output line buffer and the flags. -/
structure DispState where
  output : List String
  flags : GetJSONFlags
deriving DecidableEq, Repr

/-- `ADPNGetJSON.get_output` (lines 308–321) for `text/plain`:
`str(value)`, or `key\tvalue` when `pair` is set. -/
def getOutputLines (v : PyVal) (key : String) (pair : Bool) : List String :=
  if pair then [key ++ "\t" ++ pyStr v] else [pyStr v]

/-- Python `"\t".join(item)` for a list packet row: every element must be
a `str`, otherwise `TypeError`. -/
def joinTabStrs : List PyVal → Except PyErr String
  | l => (go l).map (String.intercalate "\t")
where
  go : List PyVal → Except PyErr (List String)
    | [] => .ok []
    | VStr s :: rest => (go rest).map (s :: ·)
    | _ => .error .TypeError

mutual

/-- `ADPNGetJSON.display_data` (lines 421–427). -/
def display_data (fuel : Nat) (cfg : DispCfg) (sel : PyVal → Bool)
    (table : PyVal) (contextIsList parse : Bool) (depth : Nat)
    (st : DispState) : Except PyErr DispState :=
  match fuel with
  | 0 => .error .TypeError
  | Nat.succ fuel =>
      match table with
      | VDict d =>
          display_data_dict fuel cfg sel d contextIsList (some cfg.dataKeys)
            parse (depth + 1) st
      | VList l =>
          display_data_list fuel cfg sel l contextIsList parse (depth + 1) st
      | v =>
          if v ≠ VNone ∨ depth > 1 then
            .ok { st with output := st.output ++ getOutputLines v "" false }
          else .ok st
termination_by structural fuel

/-- `ADPNGetJSON.display_data_dict` (lines 333–362), `text/plain` path:
iterate the requested keys, flag `key_error` at the first missing one, and
emit the collected `out` lines (tab-joined into one line under table mode
or a list context). -/
def display_data_dict (fuel : Nat) (cfg : DispCfg) (sel : PyVal → Bool)
    (d : List (String × PyVal)) (contextIsList : Bool)
    (keys : Option (List String)) (parse : Bool) (depth : Nat)
    (st : DispState) : Except PyErr DispState :=
  match fuel with
  | 0 => .error .TypeError
  | Nat.succ fuel =>
      let l_keys :=
        match keys with
        | none => d.map (·.1)
        | some ks => if ks.length = 0 then d.map (·.1) else ks
      let paired := cfg.wantsTable || decide (l_keys.length > 1)
      match display_dict_keys fuel cfg sel d contextIsList parse depth
          l_keys.length paired l_keys [] st with
      | .error e => .error e
      | .ok (st', out, missing) =>
          let st' := { st' with
            flags := add_flag st'.flags "key_error" missing }
          if cfg.wantsTable || contextIsList then
            .ok { st' with
              output := st'.output ++ [String.intercalate "\t" out] }
          else
            .ok { st' with output := st'.output ++ out }
termination_by structural fuel

/-- The `for key in l_keys` loop of `display_data_dict` (lines 338–346):
returns the updated state, the accumulated `out` lines, and the missing
key if a `KeyError` aborted the loop. -/
def display_dict_keys (fuel : Nat) (cfg : DispCfg) (sel : PyVal → Bool)
    (d : List (String × PyVal)) (contextIsList parse : Bool) (depth : Nat)
    (nkeys : Nat) (paired : Bool) (ks : List String) (out : List String)
    (st : DispState) : Except PyErr (DispState × List String × Option String) :=
  match fuel with
  | 0 => .error .TypeError
  | Nat.succ fuel =>
      match ks with
      | [] => .ok (st, out, none)
      | k :: rest =>
          match dictGet d k with
          | none => .ok (st, out, some k)
          | some v =>
              match v with
              | VList l =>
                  if nkeys < 2 then
                    match display_data_list fuel cfg sel l contextIsList
                        parse (depth + 1) st with
                    | .error e => .error e
                    | .ok st' =>
                        display_dict_keys fuel cfg sel d contextIsList parse
                          depth nkeys paired rest out st'
                  else
                    display_dict_keys fuel cfg sel d contextIsList parse
                      depth nkeys paired rest
                      (out ++ getOutputLines v k paired) st
              | VDict dd =>
                  if nkeys < 2 then
                    match display_data_dict fuel cfg sel dd contextIsList
                        none parse (depth + 1) st with
                    | .error e => .error e
                    | .ok st' =>
                        display_dict_keys fuel cfg sel d contextIsList parse
                          depth nkeys paired rest out st'
                  else
                    display_dict_keys fuel cfg sel d contextIsList parse
                      depth nkeys paired rest
                      (out ++ getOutputLines v k paired) st
              | _ =>
                  display_dict_keys fuel cfg sel d contextIsList parse depth
                    nkeys paired rest (out ++ getOutputLines v k paired) st
termination_by structural fuel

/-- `ADPNGetJSON.display_data_list` (lines 364–375): each item passing the
`selected` filter is recursed into (under `parse`, with `parse` becoming
the falsy `0`), tab-joined (lists), or appended via `add_output`. -/
def display_data_list (fuel : Nat) (cfg : DispCfg) (sel : PyVal → Bool)
    (l : List PyVal) (contextIsList parse : Bool) (depth : Nat)
    (st : DispState) : Except PyErr DispState :=
  match fuel with
  | 0 => .error .TypeError
  | Nat.succ fuel =>
      match l with
      | [] => .ok st
      | item :: rest =>
          if sel item then
            match
              (if parse then
                display_data fuel cfg sel item contextIsList false (depth + 1)
                  st
              else
                match item with
                | VList li =>
                    match joinTabStrs li with
                    | .error e => .error e
                    | .ok line =>
                        .ok { st with output := st.output ++ [line] }
                | _ =>
                    .ok { st with
                      output := st.output ++ getOutputLines item "" false })
            with
            | .error e => .error e
            | .ok st' =>
                display_data_list fuel cfg sel rest contextIsList parse depth
                  st'
          else
            display_data_list fuel cfg sel rest contextIsList parse depth st
termination_by structural fuel

end

/-- The core of `ADPNGetJSON.execute` (lines 496–508) on the
`get_json_input` path: parse the piped lines (a decode error is caught and
flagged), run the display pass over the packet, and render the output
buffer with the computed terminator.  Returns the emitted stdout text (if
any), the accumulated flags, and the final exit code taken from the
`exitcode` property. -/
def getjson_run (fuel : Nat) (cfg : DispCfg) (sel : PyVal → Bool)
    (tmpl : String → String) (lines : List String) :
    Except PyErr (Option String × GetJSONFlags × Int) :=
  match get_json_input lines with
  | .error e =>
      if e = .JSONDecodeError then
        let flags := add_flag GetJSONFlags.init "json_error"
          (some (String.intercalate "\n" lines))
        .ok (none, flags, getjson_exitcode flags)
      else .error e
  | .ok t =>
      match display_data fuel cfg sel (VDict t) false false 0
          ⟨[], GetJSONFlags.init⟩ with
      | .error e => .error e
      | .ok st =>
          let term := get_output_terminator cfg.outputSwitch cfg.keySwitch
            "text/plain" st.output none
          .ok (converter_write_output st.output tmpl (fun _ => true) "\n" term,
            st.flags, getjson_exitcode st.flags)

example :
    getjson_run 100 ⟨none, some ["missing"]⟩ (fun _ => true) id
      ["\x7b\"a\":1\x7d"] = .ok (none, ⟨[], ["missing"], [], []⟩, 1) := by
  decide

example :
    getjson_run 100 ⟨none, some ["a"]⟩ (fun _ => true) id
      ["\x7b\"a\":1\x7d"] = .ok (some "1", ⟨[], [], [], []⟩, 0) := by
  decide

/-! ### ADPNPackageContentScript (adpn-do-package.py, lines 226–248) -/

/-- The `except AssertionError` handler of
`ADPNPackageContentScript.execute`: the exit-code effect of each branch,
as a transition on the stored exit code.  The message strings (which pass
through `os.path.realpath`) are not modelled; `args` is the exception's
argument tuple.  A `"BagIt"` failure carrying the validator's exit code
`N` calls `write_error(100 + N, ...)`, a `"manifest"` failure
`write_error(4, ...)`, and the remaining branches `write_error(2, ...)`;
each of these stores the code through `set_exitcode`, which raises
`ValueError` when the code is outside 0..255. -/
def handle_assertion_error (stored : Int) (args : List PyVal) :
    Int × Option PyErr :=
  match args with
  | [] => (stored, some .IndexError)
  | a0 :: _ =>
      if a0 = VStr "BagIt" then
        match args[1]?, args[2]?, args[3]? with
        | some _, some (VStr _), some (VInt n) => set_exitcode stored (100 + n)
        | some _, some (VStr _), some _ => (stored, some .TypeError)
        | some _, some _, some _ => (stored, some .TypeError)
        | _, _, _ => (stored, some .IndexError)
      else if a0 = VStr "manifest" then
        match args[1]?, args[2]?, args[3]? with
        | some _, some (VStr _), some _ => set_exitcode stored 4
        | some _, some _, some _ => (stored, some .TypeError)
        | _, _, _ => (stored, some .IndexError)
      else if args.length = 2 then
        set_exitcode stored 2
      else
        set_exitcode stored 2

example :
    handle_assertion_error 0
      [VStr "BagIt", VStr "BagIt validation failed", VStr "/tmp/au",
        VInt 1, VList []] = (101, none) := by decide
example :
    handle_assertion_error 0
      [VStr "BagIt", VStr "BagIt validation failed", VStr "/tmp/au",
        VInt 156, VList []] = (0, some .ValueError) := by decide

/-! ## Theorems -/

/-- The value selected by the `parameters` scan of `get_data`: the value of
the last well-formed (length-2) pair whose name equals the indirected key
name, if any. -/
def lastMatchingParam : List PyVal → String → Option PyVal
  | [], _ => none
  | p :: rest, name =>
      match lastMatchingParam rest name with
      | some v => some v
      | none =>
          match pyLen p with
          | some 2 =>
              if (unpack2 p).1 = VStr name then some (unpack2 p).2 else none
          | _ => none

theorem paramsLoop_eq (name : String) :
    ∀ (ps : List PyVal) (r : PyVal), (∀ p ∈ ps, (pyLen p).isSome) →
      paramsLoop ps name r = .ok ((lastMatchingParam ps name).getD r) := by
  intro ps
  induction ps with
  | nil => intro r h; simp [paramsLoop, lastMatchingParam]
  | cons p rest ih =>
      intro r h
      have hp : (pyLen p).isSome = true := h p (by simp)
      obtain ⟨np, hnp⟩ := Option.isSome_iff_exists.mp hp
      have hrest : ∀ q ∈ rest, (pyLen q).isSome := fun q hq => h q (by simp [hq])
      by_cases h2 : np = 2
      · subst h2
        rw [show paramsLoop (p :: rest) name r
              = paramsLoop rest name
                  (if (unpack2 p).1 = VStr name then (unpack2 p).2 else r) from
            by simp [paramsLoop, hnp]]
        rw [ih _ hrest]
        cases hlm : lastMatchingParam rest name with
        | some w => simp [lastMatchingParam, hlm]
        | none =>
            by_cases heq : (unpack2 p).1 = VStr name
            · simp [lastMatchingParam, hlm, hnp, heq]
            · simp [lastMatchingParam, hlm, hnp, heq]
      · rw [show paramsLoop (p :: rest) name r = paramsLoop rest name r from
            by simp [paramsLoop, hnp, h2]]
        rw [ih _ hrest]
        cases hlm : lastMatchingParam rest name with
        | some w => simp [lastMatchingParam, hlm]
        | none => simp [lastMatchingParam, hlm, hnp, h2]

/-- C1 (amended): for a key without the `@` prefix, or when the packet's
top-level `parameters` is not a list, `get_data` returns the plain lookup
of the literal key.  For an `@`-prefixed key with a `parameters` list the
scan is performed unconditionally — whether or not the plain lookup
succeeded — and the value of the last matching well-formed pair, when one
exists, overrides the plain-lookup result; with no matching pair the
plain-lookup result (possibly absent) is returned. -/
theorem get_data_parameters_consultation :
    ∀ (d : List (String × PyVal)) (key : String),
      ((reMatchAtSign key = none ∨ isVList (pyGet d "parameters") = false) →
        get_data d key = .ok (pyGet d key)) ∧
      (∀ m1 ps, reMatchAtSign key = some m1 →
        pyGet d "parameters" = VList ps →
        (∀ p ∈ ps, (pyLen p).isSome) →
        get_data d key = .ok ((lastMatchingParam ps m1).getD (pyGet d key))) := by
  intro d key
  constructor
  · rintro (hm | hl)
    · by_cases hl : isVList (pyGet d "parameters") <;> simp [get_data, hm, hl]
    · simp [get_data, hl]
  · intro m1 ps hm hps hwf
    simp only [get_data, hps, isVList, if_true, hm]
    exact paramsLoop_eq m1 ps (pyGet d key) hwf

/-- C1 witness: the spec's own `@`-indirection examples, via the theorem. -/
theorem get_data_parameters_consultation_witness :
    get_data [("parameters", VList [VList [VStr "foo", VStr "bar"]])] "@foo"
        = .ok (VStr "bar") ∧
      get_data [("parameters", VList [VList [VStr "foo", VStr "bar"]])]
          "@missing" = .ok VNone := by
  constructor
  · have h := (get_data_parameters_consultation
      [("parameters", VList [VList [VStr "foo", VStr "bar"]])] "@foo").2
      "foo" [VList [VStr "foo", VStr "bar"]] (by decide) (by decide)
      (by decide)
    exact h.trans (by decide)
  · have h := (get_data_parameters_consultation
      [("parameters", VList [VList [VStr "foo", VStr "bar"]])] "@missing").2
      "missing" [VList [VStr "foo", VStr "bar"]] (by decide) (by decide)
      (by decide)
    exact h.trans (by decide)

/-- C1 counterexample: with packet
`{"@foo": "x", "parameters": [["foo", "bar"]]}` the plain lookup of the
literal key `@foo` succeeds (value `"x"`), yet the selector still consults
the `parameters` list and returns `"bar"` — so the `parameters` entries
are *not* consulted only when the primary lookup fails. -/
theorem get_data_consults_parameters_despite_plain_hit :
    dictGet [("@foo", VStr "x"),
        ("parameters", VList [VList [VStr "foo", VStr "bar"]])] "@foo"
      = some (VStr "x") ∧
    get_data [("@foo", VStr "x"),
        ("parameters", VList [VList [VStr "foo", VStr "bar"]])] "@foo"
      = .ok (VStr "bar") ∧
    VStr "bar" ≠ VStr "x" := by
  refine ⟨by decide, by decide, by decide⟩

theorem isPySpace_eq_false {c : Char} (h : c.isDigit = true) :
    isPySpace c = false := by
  by_contra hc
  have hc' : isPySpace c = true := by revert hc; cases isPySpace c <;> simp
  simp only [isPySpace, Bool.or_eq_true, decide_eq_true_eq] at hc'
  rcases hc' with ((((h1 | h1) | h1) | h1) | h1) | h1 <;>
    (rw [h1] at h; exact absurd h (by decide))

theorem dropWhile_eq_self_of (p : Char → Bool) (l : List Char)
    (h : ∀ c ∈ l, p c = false) : l.dropWhile p = l := by
  cases l with
  | nil => rfl
  | cons c rest => simp [List.dropWhile_cons, h c (by simp)]

theorem pyDigitRunGo_digits :
    ∀ (rest acc : List Char), (∀ c ∈ rest, c.isDigit) →
      pyDigitRun.pyDigitRunGo rest acc = some (acc.reverse ++ rest) := by
  intro rest
  induction rest with
  | nil => intro acc h; simp [pyDigitRun.pyDigitRunGo]
  | cons c rest' ih =>
      intro acc h
      have hc : c.isDigit := h c (by simp)
      have hcu : c ≠ '_' := by
        intro he; rw [he] at hc; exact absurd hc (by decide)
      have hrest : ∀ x ∈ rest', x.isDigit := fun x hx => h x (by simp [hx])
      rw [pyDigitRun.pyDigitRunGo.eq_def]
      simp only [hcu, hc, ite_false, ite_true]
      rw [ih (c :: acc) hrest]
      simp

theorem pyDigitRun_digits (ds : List Char) (hne : ds ≠ [])
    (hall : ∀ c ∈ ds, c.isDigit) : pyDigitRun ds = some ds := by
  cases ds with
  | nil => exact absurd rfl hne
  | cons c rest =>
      have hc : c.isDigit := hall c (by simp)
      rw [pyDigitRun, if_pos hc,
        pyDigitRunGo_digits rest [c] (fun x hx => hall x (by simp [hx]))]
      simp

theorem pyIntOfStr_digits (ds : List Char) (hne : ds ≠ [])
    (hall : ∀ c ∈ ds, c.isDigit) :
    pyIntOfStr (String.mk ds) = some ((digitsVal ds : Int)) := by
  have hs : ∀ c ∈ ds, isPySpace c = false :=
    fun c hc => isPySpace_eq_false (hall c hc)
  have h2 : ds.dropWhile (isPySpace ·) = ds := dropWhile_eq_self_of _ _ hs
  have h3 : ds.reverse.dropWhile (isPySpace ·) = ds.reverse :=
    dropWhile_eq_self_of _ _ (fun c hc => hs c (List.mem_reverse.mp hc))
  cases ds with
  | nil => exact absurd rfl hne
  | cons c rest =>
      have hc : c.isDigit := hall c (by simp)
      have hp : c ≠ '+' := by
        intro he; rw [he] at hc; exact absurd hc (by decide)
      have hm : c ≠ '-' := by
        intro he; rw [he] at hc; exact absurd hc (by decide)
      show pyIntOfStr ⟨c :: rest⟩ = some ((digitsVal (c :: rest) : Int))
      rw [pyIntOfStr]
      simp only [String.toList]
      rw [h2, h3, List.reverse_reverse]
      simp [if_neg hp, if_neg hm, pyDigitRun_digits _ hne hall]

theorem reMatchNumComma_digits {s m1 : String} (h : reMatchNumComma s = some m1) :
    m1.toList ≠ [] ∧ ∀ c ∈ m1.toList, c.isDigit := by
  unfold reMatchNumComma at h
  cases hc : reDollarCore s.toList with
  | none => rw [hc] at h; cases h
  | some cs =>
      rw [hc] at h
      simp only [] at h
      split_ifs at h with hcond
      · obtain ⟨hne, _⟩ := hcond
        injection h with h'
        constructor
        · rw [← h']; exact hne
        · intro c hcm
          rw [← h'] at hcm
          exact List.mem_takeWhile_imp hcm

/-- C2: behaviour of `convertto_numeric_value` clause by clause: numbers
pass through; a string matching `^([0-9]+),...` yields the integer value
of its leading digits (trailing comment text ignored); any other
non-numeric (`int()` fails) non-empty string yields 1; the empty string
yields 0; the `None` object yields 0 (via the switch-table fallback, which
itself yields `None` for an absent switch); a list or dict raises
`TypeError`. -/
theorem convertto_numeric_value_spec :
    ∀ (sv v : PyVal),
      (∀ n, v = VInt n → convertto_numeric_value sv v = .ok n) ∧
      (∀ b, v = VBool b →
        convertto_numeric_value sv v = .ok (if b then 1 else 0)) ∧
      (∀ s m1, v = VStr s → reMatchNumComma s = some m1 →
        convertto_numeric_value sv v = .ok ((digitsVal m1.toList : Int))) ∧
      (∀ s, v = VStr s → reMatchNumComma s = none → pyIntOfStr s = none →
        s ≠ "" → convertto_numeric_value sv v = .ok 1) ∧
      (v = VStr "" → convertto_numeric_value sv v = .ok 0) ∧
      (v = VNone → sv = VNone → convertto_numeric_value sv v = .ok 0) ∧
      (∀ l, v = VList l →
        convertto_numeric_value sv v = .error .TypeError) ∧
      (∀ dd, v = VDict dd →
        convertto_numeric_value sv v = .error .TypeError) := by
  intro sv v
  refine ⟨?_, ?_, ?_, ?_, ?_, ?_, ?_, ?_⟩
  · rintro n rfl; simp [convertto_numeric_value]
  · rintro b rfl; simp [convertto_numeric_value]
  · rintro s m1 rfl hm
    have hd := reMatchNumComma_digits hm
    have hps : pyIntOfStr m1 = some ((digitsVal m1.toList : Int)) :=
      pyIntOfStr_digits m1.toList hd.1 hd.2
    simp [convertto_numeric_value, hm, hps]
  · rintro s rfl hm hint hne
    have hd : s.data ≠ [] := by
      intro hdd; exact hne (by cases s; simp_all)
    have hl : 0 < s.length := List.length_pos.mpr hd
    simp [convertto_numeric_value, hm, hint, hl]
  · rintro rfl
    have h1 : reMatchNumComma "" = none := by decide
    have h2 : pyIntOfStr "" = none := by decide
    simp [convertto_numeric_value, h1, h2]
  · rintro rfl rfl; decide
  · rintro l rfl; simp [convertto_numeric_value]
  · rintro dd rfl; simp [convertto_numeric_value]

/-- C2 witness: the spec's five coercion examples, via the theorem
(`sv = VNone` plays `self.switches.get(None)` for an absent switch). -/
theorem convertto_numeric_value_spec_witness :
    convertto_numeric_value VNone (VStr "3,ignored") = .ok 3 ∧
    convertto_numeric_value VNone (VStr "") = .ok 0 ∧
    convertto_numeric_value VNone (VStr "abc") = .ok 1 ∧
    convertto_numeric_value VNone VNone = .ok 0 ∧
    convertto_numeric_value VNone (VInt 5) = .ok 5 := by
  refine ⟨?_, ?_, ?_, ?_, ?_⟩
  · exact ((convertto_numeric_value_spec VNone (VStr "3,ignored")).2.2.1
      "3,ignored" "3" rfl (by decide)).trans (by decide)
  · exact (convertto_numeric_value_spec VNone (VStr "")).2.2.2.2.1 rfl
  · exact (convertto_numeric_value_spec VNone (VStr "abc")).2.2.2.1
      "abc" rfl (by decide) (by decide) (by decide)
  · exact (convertto_numeric_value_spec VNone VNone).2.2.2.2.2.1 rfl rfl
  · exact (convertto_numeric_value_spec VNone (VInt 5)).1 5 rfl

/-- C3: the final exit code of the JSON query tool is computed from the
accumulated flags with fixed priority — 2 for a flagged decode error, else
1 for a flagged missing key, else 254 for a flagged output error, else 0;
and a full run querying key `missing` against `{"a":1}` emits nothing on
stdout and exits 1. -/
theorem getjson_exitcode_priority :
    ∀ f : GetJSONFlags,
      (f.json_error ≠ [] → getjson_exitcode f = 2) ∧
      (f.json_error = [] → f.key_error ≠ [] → getjson_exitcode f = 1) ∧
      (f.json_error = [] → f.key_error = [] → f.output_error ≠ [] →
        getjson_exitcode f = 254) ∧
      (f.json_error = [] → f.key_error = [] → f.output_error = [] →
        getjson_exitcode f = 0) ∧
      getjson_run 100 ⟨none, some ["missing"]⟩ (fun _ => true) id
        ["\x7b\"a\":1\x7d"] = .ok (none, ⟨[], ["missing"], [], []⟩, 1) := by
  intro f
  refine ⟨?_, ?_, ?_, ?_, by decide⟩
  · intro h
    simp [getjson_exitcode, test_flagged, flagsGet, List.length_pos, h]
  · intro h1 h2
    simp [getjson_exitcode, test_flagged, flagsGet, List.length_pos, h1, h2]
  · intro h1 h2 h3
    simp [getjson_exitcode, test_flagged, flagsGet, List.length_pos,
      h1, h2, h3]
  · intro h1 h2 h3
    simp [getjson_exitcode, test_flagged, flagsGet, h1, h2, h3]

/-- C3 witness: one flag state per priority level, via the theorem. -/
theorem getjson_exitcode_priority_witness :
    getjson_exitcode ⟨["e"], ["k"], [], ["o"]⟩ = 2 ∧
    getjson_exitcode ⟨[], ["k"], [], ["o"]⟩ = 1 ∧
    getjson_exitcode ⟨[], [], [], ["o"]⟩ = 254 ∧
    getjson_exitcode ⟨[], [], [], []⟩ = 0 := by
  refine ⟨(getjson_exitcode_priority ⟨["e"], ["k"], [], ["o"]⟩).1 (by simp),
    (getjson_exitcode_priority ⟨[], ["k"], [], ["o"]⟩).2.1 rfl (by simp),
    (getjson_exitcode_priority ⟨[], [], [], ["o"]⟩).2.2.1 rfl rfl (by simp),
    (getjson_exitcode_priority ⟨[], [], [], []⟩).2.2.2.1 rfl rfl rfl⟩

/-- C4: the input store first attempts a direct JSON-parse pass over the
whole input; when that pass succeeds the screen pass is never consulted
(the result is the direct pass's), and when it raises a decode error the
store is re-run in screen mode over the same lines; a noisy line yields
its embedded balanced `{...}` packet via the screen pass. -/
theorem get_json_input_screen_second_pass :
    ∀ (lines : List String),
      (∀ t, acceptDirect lines = .ok t → get_json_input lines = .ok t) ∧
      (∀ e, acceptDirect lines = .error e →
        get_json_input lines = acceptScreen lines) ∧
      (acceptDirect ["Some noise \x7b\"k\":1\x7d trailing text"]
          = .error .JSONDecodeError ∧
        get_json_input ["Some noise \x7b\"k\":1\x7d trailing text"]
          = .ok [("k", VInt 1)]) := by
  intro lines
  refine ⟨?_, ?_, by decide⟩
  · intro t h; simp [get_json_input, h]
  · intro e h; simp [get_json_input, h]

/-- C4 witness: a clean JSON line is returned by the direct pass, via the
theorem. -/
theorem get_json_input_screen_second_pass_witness :
    get_json_input ["\x7b\"a\":1\x7d"] = .ok [("a", VInt 1)] :=
  (get_json_input_screen_second_pass ["\x7b\"a\":1\x7d"]).1
    [("a", VInt 1)] (by decide)

/-- C5: the emitted output's terminator is `"\n"` exactly when table mode
is active or more than one output line was produced; a single-line,
non-table output is emitted with no added line terminator. -/
theorem output_terminator_newline_iff :
    ∀ (outputSwitch : Option String) (keySwitch : Option (List String))
      (out : List String) (tmpl : String → String),
      (get_output_terminator outputSwitch keySwitch "text/plain" out none
          = "\n" ↔
        (wants_table outputSwitch keySwitch "text/plain" = true ∨
          out.length > 1)) ∧
      (∀ l, wants_table outputSwitch keySwitch "text/plain" = false →
        converter_write_output [l] tmpl (fun _ => true) "\n"
            (get_output_terminator outputSwitch keySwitch "text/plain" [l]
              none)
          = some (tmpl l)) := by
  intro os ks out tmpl
  constructor
  · by_cases hw : wants_table os ks "text/plain" = true
    · simp [get_output_terminator, is_multiline_output, hw]
    · by_cases hlen : out.length > 1 <;>
        simp [get_output_terminator, is_multiline_output, hw, hlen]
  · intro l hw
    simp [converter_write_output, get_output_terminator,
      is_multiline_output, hw]
    rfl

/-- C5 witness: table mode forces the terminator even for one line, and a
single plain line is emitted without one, via the theorem. -/
theorem output_terminator_newline_iff_witness :
    get_output_terminator (some "text/tab-separated-values")
        (some ["a", "b"]) "text/plain" ["a\t1\tb\t2"] none = "\n" ∧
    converter_write_output ["1"] id (fun _ => true) "\n"
        (get_output_terminator none (some ["a"]) "text/plain" ["1"] none)
      = some "1" := by
  constructor
  · exact ((output_terminator_newline_iff (some "text/tab-separated-values")
      (some ["a", "b"]) ["a\t1\tb\t2"] id).1).mpr (Or.inl (by decide))
  · exact (output_terminator_newline_iff none (some ["a"]) ["1"] id).2 "1"
      (by decide)

/-- C6 (amended): `write_error` always writes to standard error with the
bracketed script-name prefix; a `write_status` notice goes to standard
error only when the output format is not plain text and the message's
verbosity tag is positive — otherwise the (still prefixed) notice, like
non-notice text, goes to standard output. -/
theorem diagnostics_stream_policy :
    ∀ (name : String) (plain : Bool) (verbose : Int) (msg : String)
      (prolog : Option String) (isNotice : Bool) (verbosity : Int)
      (st : OutStream) (txt : String),
      (write_status name plain verbose msg prolog isNotice verbosity
          = some (st, txt) →
        (st = OutStream.stderr ↔
          (isNotice = true ∧ plain = false ∧ verbosity > 0))) ∧
      (∀ (stored : Int) (pfx : String) (code : Option Int) (st2 : Int)
        (e : Option PyErr) (ln : OutStream × String),
        write_error stored name pfx msg code = (st2, e, some ln) →
        ln.1 = OutStream.stderr ∧
          ln.2 = pfx ++ "[" ++ name ++ "] " ++ msg) := by
  intro name plain verbose msg prolog isNotice verbosity st txt
  constructor
  · intro h
    simp only [write_status] at h
    split_ifs at h with hv hni hcond <;> simp_all [Bool.not_eq_true]
    · obtain ⟨h1, -⟩ := h
      subst h1
      constructor
      · intro hh; exact absurd hh (by simp)
      · rintro ⟨hp, hv0⟩; have hc := hcond hp; exact absurd hv0 (by omega)
    · obtain ⟨h1, -⟩ := h
      subst h1
      simp
  · intro stored pfx code st2 e ln h
    cases code with
    | none =>
        simp only [write_error] at h
        simp only [Prod.mk.injEq] at h
        obtain ⟨-, -, h3⟩ := h
        injection h3 with h4
        rw [← h4]
        exact ⟨rfl, rfl⟩
    | some c =>
        simp only [write_error] at h
        by_cases hr : 0 ≤ c ∧ c ≤ 255
        · rw [show set_exitcode stored c = (c, none) from by
            simp [set_exitcode, hr]] at h
          simp only [Prod.mk.injEq] at h
          obtain ⟨-, -, h3⟩ := h
          injection h3 with h4
          rw [← h4]
          exact ⟨rfl, rfl⟩
        · rw [show set_exitcode stored c = (stored, some .ValueError) from by
            simp [set_exitcode, hr]] at h
          simp only [Prod.mk.injEq] at h
          obtain ⟨-, -, h3⟩ := h
          cases h3

/-- C6 witness: a non-plain-text notice with positive verbosity goes to
stderr, and an error line carries the bracketed prefix, via the theorem. -/
theorem diagnostics_stream_policy_witness :
    (OutStream.stderr = OutStream.stderr ↔
      (true = true ∧ false = false ∧ (1 : Int) > 0)) ∧
    ((OutStream.stderr, "[adpn-json.py] m").1 = OutStream.stderr ∧
      (OutStream.stderr, "[adpn-json.py] m").2
        = "" ++ "[" ++ "adpn-json.py" ++ "] " ++ "m") := by
  constructor
  · exact (diagnostics_stream_policy "adpn-json.py" false 1 "m" none true 1
      OutStream.stderr "[adpn-json.py] m").1 (by decide)
  · exact (diagnostics_stream_policy "adpn-json.py" false 1 "m" none true 1
      OutStream.stderr "[adpn-json.py] m").2 0 "" (some 2) 2 none
      (OutStream.stderr, "[adpn-json.py] m") (by decide)

/-- C6 counterexample: under the default plain-text output format a
`write_status` notice — bracketed script-name prefix included — is printed
to standard *output*, so diagnostic text from `write_status` does reach
stdout, contrary to the claim that it all goes to standard error. -/
theorem write_status_notice_on_stdout :
    write_status "adpn-json.py" true 1 "Requesting manifest" none true 0
      = some (OutStream.stdout, "[adpn-json.py] Requesting manifest") ∧
    OutStream.stdout ≠ OutStream.stderr := by
  refine ⟨by decide, by decide⟩

/-- C7 (amended): the packaging tool's failure exit codes — 2 for a
missing required parameter (and for any other bare requirement failure),
4 for a manifest boilerplate mismatch, and 100 + N for a BagIt validation
failure whose subordinate tool exited with N, provided 100 + N still fits
in the storable range 0..255 (N ≤ 155); for larger N the range check
raises `ValueError` instead of exiting. -/
theorem package_failure_exit_codes :
    ∀ (stored n : Int) (msg extra a1 : PyVal) (path : String),
      (0 ≤ 100 + n → 100 + n ≤ 255 →
        handle_assertion_error stored
          [VStr "BagIt", msg, VStr path, VInt n, extra] = (100 + n, none)) ∧
      (handle_assertion_error stored
          [VStr "manifest", msg, VStr path, extra] = (4, none)) ∧
      (∀ a0, a0 ≠ VStr "BagIt" → a0 ≠ VStr "manifest" →
        handle_assertion_error stored [a0, a1] = (2, none)) := by
  intro stored n msg extra a1 path
  refine ⟨?_, ?_, ?_⟩
  · intro h1 h2
    simp [handle_assertion_error, set_exitcode, h1, h2]
  · simp [handle_assertion_error, set_exitcode]
  · intro a0 hb hm
    simp [handle_assertion_error, set_exitcode, hb, hm]

/-- C7 witness: the three failure kinds at concrete inputs, via the
theorem. -/
theorem package_failure_exit_codes_witness :
    handle_assertion_error 0
        [VStr "BagIt", VStr "m", VStr "/p", VInt 1, VList []]
      = (101, none) ∧
    handle_assertion_error 0 [VStr "manifest", VStr "m", VStr "/p", VStr "b"]
      = (4, none) ∧
    handle_assertion_error 0 [VStr "parameter requirement", VList []]
      = (2, none) := by
  refine ⟨?_, ?_, ?_⟩
  · have h := (package_failure_exit_codes 0 1 (VStr "m") (VList [])
      (VList []) "/p").1 (by decide) (by decide)
    exact h.trans (by decide)
  · exact (package_failure_exit_codes 0 1 (VStr "m") (VStr "b")
      (VList []) "/p").2.1
  · exact (package_failure_exit_codes 0 1 (VStr "m") (VList [])
      (VList []) "/p").2.2 (VStr "parameter requirement")
      (by decide) (by decide)

/-- C7 counterexample: a BagIt failure whose subordinate exit code is
N = 156 does not exit with 100 + N = 256 — the range check in
`set_exitcode` raises `ValueError` and the stored exit code is left
unchanged (so no `256` is ever produced). -/
theorem bagit_offset_code_overflow :
    handle_assertion_error 0
        [VStr "BagIt", VStr "BagIt validation failed", VStr "/tmp/au",
          VInt 156, VList []]
      = (0, some PyErr.ValueError) := by decide

/-- C8: `data_matches` on a dict item — a `/regex/`-shaped value keeps the
item exactly when the regex matches the (string) field; otherwise a string
field is kept exactly on string equality with the literal value, and an
integer field exactly on equality with `int(value)` when that conversion
succeeds; and the `selected` filter built from a `key:value` where-spec is
exactly `data_matches` at the split key and value. -/
theorem data_matches_where_filter :
    ∀ (matcher : String → String → Bool) (d : List (String × PyVal))
      (key value : String),
      (∀ m1 s, reMatchSlashes value = some m1 →
        dictGet d key = some (VStr s) →
        data_matches matcher (VDict d) key value = .ok (matcher m1 s)) ∧
      (∀ s, reMatchSlashes value = none → dictGet d key = some (VStr s) →
        data_matches matcher (VDict d) key value
          = .ok (decide (s = value))) ∧
      (∀ n m, reMatchSlashes value = none → dictGet d key = some (VInt n) →
        pyIntOfStr value = some m →
        data_matches matcher (VDict d) key value
          = .ok (decide (n = m))) ∧
      (∀ spec k v x, whereSplit spec = some (k, v) → spec ≠ "" →
        selected matcher (some spec) x = data_matches matcher x k v) := by
  intro matcher d key value
  refine ⟨?_, ?_, ?_, ?_⟩
  · intro m1 s hre hfield
    simp [data_matches, hre, pyGet, hfield]
  · intro s hre hfield
    simp [data_matches, hre, pyGet, hfield]
  · intro n m hre hfield hint
    simp [data_matches, hre, pyGet, hfield, hint]
  · intro spec k v x hsplit hne
    simp [selected, hne, hsplit]

/-- C8 witness: one concrete instance per branch, via the theorem. -/
theorem data_matches_where_filter_witness :
    data_matches (fun p f => p = "ab" && f = "abc")
        (VDict [("t", VStr "abc")]) "t" "/ab/" = .ok true ∧
    data_matches (fun _ _ => false) (VDict [("t", VStr "x")]) "t" "x"
      = .ok true ∧
    data_matches (fun _ _ => false) (VDict [("n", VInt 3)]) "n" "3"
      = .ok true ∧
    selected (fun _ _ => false) (some "n:3") (VDict [("n", VInt 3)])
      = .ok true := by
  refine ⟨?_, ?_, ?_, ?_⟩
  · exact ((data_matches_where_filter (fun p f => p = "ab" && f = "abc")
      [("t", VStr "abc")] "t" "/ab/").1 "ab" "abc" (by decide)
      (by decide)).trans (by decide)
  · exact ((data_matches_where_filter (fun _ _ => false)
      [("t", VStr "x")] "t" "x").2.1 "x" (by decide) (by decide)).trans
      (by decide)
  · exact ((data_matches_where_filter (fun _ _ => false)
      [("n", VInt 3)] "n" "3").2.2.1 3 3 (by decide) (by decide)
      (by decide)).trans (by decide)
  · exact ((data_matches_where_filter (fun _ _ => false)
      [("n", VInt 3)] "n" "3").2.2.2 "n:3" "n" "3"
      (VDict [("n", VInt 3)]) (by decide) (by decide)).trans (by decide)

theorem dictGet_dictSet_ne :
    ∀ (d : List (String × PyVal)) (k : String) (v : PyVal) (k' : String),
      k' ≠ k → dictGet (dictSet d k v) k' = dictGet d k' := by
  intro d k v k' h
  induction d with
  | nil => simp [dictSet, dictGet, Ne.symm h]
  | cons p rest ih =>
      obtain ⟨pk, pv⟩ := p
      by_cases hpk : pk = k
      · subst hpk
        simp [dictSet, dictGet, Ne.symm h]
      · by_cases hpk' : pk = k' <;> simp [dictSet, dictGet, hpk, hpk', ih, h]

/-- C9: the backfill operation changes no key other than the named one;
when the named key already has a non-absent (non-`None`) value the result
is the input table unchanged; and any change means the named key was
absent and was filled with the (non-`None`) piped value.  (In this
embedding `backfilled` returns a fresh table and cannot mutate its
argument, mirroring the `{**table}` copy in the code.) -/
theorem backfilled_frame_properties :
    ∀ (table : List (String × PyVal)) (key : String)
      (gd : Except PyErr PyVal),
      (∀ res, backfilled table key gd = .ok res →
        ∀ k', k' ≠ key → dictGet res k' = dictGet table k') ∧
      (pyGet table key ≠ VNone → backfilled table key gd = .ok table) ∧
      (∀ res, backfilled table key gd = .ok res → res ≠ table →
        pyGet table key = VNone ∧
          ∃ v, gd = .ok v ∧ v ≠ VNone ∧ res = dictSet table key v) := by
  intro table key gd
  refine ⟨?_, ?_, ?_⟩
  · intro res hres k' hk'
    simp only [backfilled] at hres
    split_ifs at hres with habs
    · cases gd with
      | error e => cases hres
      | ok v =>
          by_cases hv : v = VNone
          · simp [hv] at hres
            rw [← hres]
          · simp [hv] at hres
            rw [← hres]
            exact dictGet_dictSet_ne table key v k' hk'
    · injection hres with h'
      rw [← h']
  · intro hne
    unfold backfilled
    rw [if_neg hne]
  · intro res hres hneq
    simp only [backfilled] at hres
    split_ifs at hres with habs
    · cases gd with
      | error e => cases hres
      | ok v =>
          by_cases hv : v = VNone
          · simp [hv] at hres
            exact absurd hres.symm hneq
          · simp [hv] at hres
            exact ⟨habs, v, rfl, hv, hres.symm⟩
    · injection hres with h'
      exact absurd h'.symm hneq

/-- C9 witness: an unrelated key is untouched by a fill, and a present
value blocks the fill, via the theorem. -/
theorem backfilled_frame_properties_witness :
    dictGet (dictSet [("a", VInt 1)] "b" (VStr "x")) "a"
        = dictGet [("a", VInt 1)] "a" ∧
    backfilled [("key", VStr "set")] "key" (.ok (VStr "piped"))
      = .ok [("key", VStr "set")] := by
  constructor
  · exact (backfilled_frame_properties [("a", VInt 1)] "b"
      (.ok (VStr "x"))).1 (dictSet [("a", VInt 1)] "b" (VStr "x"))
      (by decide) "a" (by decide)
  · exact (backfilled_frame_properties [("key", VStr "set")] "key"
      (.ok (VStr "piped"))).2.1 (by decide)

/-- C10: `set_exitcode` stores exactly the codes in 0..255 and raises
`ValueError` for anything else, leaving the stored code unchanged; hence
(also through `write_error`) a stored code in range stays in range, and an
offset code 100 + N with N > 155 is never stored — the call raises
`ValueError` and prints nothing. -/
theorem exitcode_range_invariant :
    ∀ (stored code : Int),
      (0 ≤ code → code ≤ 255 → set_exitcode stored code = (code, none)) ∧
      (¬ (0 ≤ code ∧ code ≤ 255) →
        set_exitcode stored code = (stored, some .ValueError)) ∧
      (0 ≤ stored → stored ≤ 255 →
        0 ≤ (set_exitcode stored code).1 ∧
          (set_exitcode stored code).1 ≤ 255) ∧
      (∀ (name pfx msg : String), 0 ≤ stored → stored ≤ 255 →
        0 ≤ (write_error stored name pfx msg (some code)).1 ∧
          (write_error stored name pfx msg (some code)).1 ≤ 255) ∧
      (∀ n : Int, 155 < n → ∀ (name pfx msg : String),
        write_error stored name pfx msg (some (100 + n))
          = (stored, some .ValueError, none)) := by
  intro stored code
  refine ⟨?_, ?_, ?_, ?_, ?_⟩
  · intro h1 h2; simp [set_exitcode, h1, h2]
  · intro h; simp only [set_exitcode, if_neg h]
  · intro h1 h2
    unfold set_exitcode
    split_ifs with hc
    · exact ⟨hc.1, hc.2⟩
    · exact ⟨h1, h2⟩
  · intro name pfx msg h1 h2
    simp only [write_error]
    unfold set_exitcode
    split_ifs with hc
    · simp [hc.1, hc.2]
    · simp [h1, h2]
  · intro n hn name pfx msg
    have hrange : ¬ (0 ≤ 100 + n ∧ 100 + n ≤ 255) := by omega
    simp [write_error, set_exitcode, hrange]

/-- C10 witness: a valid offset code is stored, an overflowing one raises
and preserves the old code, via the theorem. -/
theorem exitcode_range_invariant_witness :
    set_exitcode 0 101 = (101, none) ∧
    set_exitcode 7 300 = (7, some .ValueError) ∧
    write_error 7 "adpn-do-package.py" "" "m" (some (100 + 156))
      = (7, some .ValueError, none) := by
  refine ⟨(exitcode_range_invariant 0 101).1 (by decide) (by decide),
    (exitcode_range_invariant 7 300).2.1 (by decide),
    (exitcode_range_invariant 7 0).2.2.2.2 156 (by decide)
      "adpn-do-package.py" "" "m"⟩
